import Mathlib

/-!
Verification of the retry-and-pagination execution engine of the
`@pinax/token-api` CLI (`bin/cli.ts`).

The CLI wraps each page-parameterized API call with bounded retry
(`executeWithRetry`), sequential queuing, and optional multi-page
aggregation (`executeWithAutoPagination`).  This file gives a shallow
embedding of that engine and proves the spec's properties about it.

Modelling conventions:
* A fetcher is a pure function from an attempt index (for retry) or a
  (page, attempt) pair (for pagination) to `Except e r`, standing for the
  promise returned by one underlying `apiCall()` invocation.
* `executeWithRetry` returns the final outcome together with the number of
  underlying `apiCall()` invocations made.  The error component is
  `Option e`: `some err` models `throw lastError`, `none` models the
  generic `new Error('Request failed after all retry attempts')` thrown
  when `lastError` is still `null`.
* The `while (true)` pagination loop is embedded with an explicit fuel
  parameter; a `none` result means the loop did not terminate within the
  given fuel (and theorems quantifying over all fuel show genuine
  non-termination).
* JavaScript numbers that the code treats as integers are modelled as
  `Int`; JS truthiness of a possibly-absent number is `jsFalsy`.
-/

namespace TokenApiCli

/-- `GlobalOptions` from `bin/cli.ts`: retry/pagination configuration. -/
structure GlobalOptions where
  maxRetries : Int
  timeoutMs : Int
  autoPaginate : Bool
deriving DecidableEq

/-- JS `parseInt(s, 10)`: skip leading whitespace, optional sign, then the
longest leading run of decimal digits; `none` models `NaN`. -/
def leadingDigits : List Char → List Char
  | [] => []
  | c :: cs => if c.isDigit then c :: leadingDigits cs else []

/-- Numeric value of a digit string (most significant first). -/
def digitsToNat (l : List Char) : Nat :=
  l.foldl (fun acc c => 10 * acc + (c.toNat - 48)) 0

/-- Model of JS `parseInt(s, 10)`; `none` stands for `NaN`. -/
def parseIntJs (s : String) : Option Int :=
  let cs := s.toList.dropWhile (fun c => c == ' ' || c == '\t' || c == '\n')
  match cs with
  | '-' :: rest =>
    match leadingDigits rest with
    | [] => none
    | ds => some (-(digitsToNat ds : Int))
  | '+' :: rest =>
    match leadingDigits rest with
    | [] => none
    | ds => some ((digitsToNat ds : Int))
  | other =>
    match leadingDigits other with
    | [] => none
    | ds => some ((digitsToNat ds : Int))

/-- JS `x || d` for `x : number | NaN` (`none` = `NaN`): `0` and `NaN` are
falsy and replaced by the default `d`. -/
def jsOrInt (v : Option Int) (d : Int) : Int :=
  match v with
  | none => d
  | some n => if n = 0 then d else n

/-- `getGlobalOptions` from `bin/cli.ts`:
`parseInt(opts.maxRetries, 10) || 3`, `parseInt(opts.timeoutMs, 10) || 10000`,
`opts.autoPaginate || false`. -/
def getGlobalOptions (maxRetriesOpt timeoutMsOpt : String) (autoPaginateOpt : Bool) :
    GlobalOptions :=
  { maxRetries := jsOrInt (parseIntJs maxRetriesOpt) 3
    timeoutMs := jsOrInt (parseIntJs timeoutMsOpt) 10000
    autoPaginate := autoPaginateOpt }

/-- The retry loop of `executeWithRetry`: `fuel` is the number of remaining
loop iterations (`maxRetries + 1` at the top call), `attempt` the current
attempt index, `lastError` the `lastError` variable.  Returns the outcome
together with the number of `apiCall()` invocations made.  The error payload
`none` models the generic error thrown when `lastError` is `null`. -/
def retryLoop (apiCall : Nat → Except ε α) (lastError : Option ε) (attempt : Nat) :
    Nat → Except (Option ε) α × Nat
  | 0 => (Except.error lastError, 0)
  | fuel + 1 =>
    match apiCall attempt with
    | Except.ok v => (Except.ok v, 1)
    | Except.error e =>
      ((retryLoop apiCall (some e) (attempt + 1) fuel).1,
       (retryLoop apiCall (some e) (attempt + 1) fuel).2 + 1)

/-- `executeWithRetry` from `bin/cli.ts`: `for (attempt = 0; attempt <= maxRetries; attempt++)`,
i.e. `max 0 (maxRetries + 1)` iterations, each invoking `apiCall()` once. -/
def executeWithRetry (apiCall : Nat → Except ε α) (opts : GlobalOptions) :
    Except (Option ε) α × Nat :=
  retryLoop apiCall none 0 (opts.maxRetries + 1).toNat

/-- The message of the error thrown after exhaustion:
`throw lastError || new Error('Request failed after all retry attempts')`. -/
def retryErrorMessage : Option String → String
  | some e => e
  | none => "Request failed after all retry attempts"

/-- The `pagination` metadata of a `PaginatedResponse` in `bin/cli.ts`. -/
structure PaginationInfo where
  current_page : Option Int
  total_pages : Option Int
  total_results : Option Int
deriving DecidableEq

/-- `PaginatedResponse` from `bin/cli.ts`.  `data = none` models a missing or
non-array `data` field (the `Array.isArray` guard in the source). -/
structure PaginatedResponse (α : Type) where
  data : Option (List α)
  pagination : Option PaginationInfo
deriving DecidableEq

/-- The combined response built after the pagination loop:
`{ ...lastResponse, data: allData, pagination: { ...lastResponse?.pagination,
current_page: 1, total_results: allData.length } }`. -/
def combinedResponse (lastResponse : PaginatedResponse α) (allData : List α) :
    PaginatedResponse α :=
  { data := some allData
    pagination := some
      { current_page := some 1
        total_pages := Option.bind lastResponse.pagination (fun p => p.total_pages)
        total_results := some (allData.length : Int) } }

/-- JS truthiness test `!limit` on `limit : number | undefined`:
`undefined` and `0` are falsy. -/
def jsFalsy : Option Int → Bool
  | none => true
  | some n => n == 0

/-- The `while (true)` loop of `executeWithAutoPagination`, with explicit
fuel.  Each iteration performs one retried fetch of `currentPage`; on a
rejected retried fetch the error propagates; on a page with array data the
items are appended and the loop stops iff the page size is strictly below
`limit`; a missing/non-array `data` also stops.  The `Nat` in the result is
the number of page fetches performed; `none` means the loop did not
terminate within `fuel` iterations. -/
def paginateLoop (apiCall : Nat → Nat → Except ε (PaginatedResponse α))
    (opts : GlobalOptions) (limit : Int) (allData : List α) (currentPage : Nat) :
    Nat → Option (Except (Option ε) (PaginatedResponse α) × Nat)
  | 0 => none
  | fuel + 1 =>
    match (executeWithRetry (apiCall currentPage) opts).1 with
    | Except.error e => some (Except.error e, 1)
    | Except.ok result =>
      match result.data with
      | none => some (Except.ok (combinedResponse result allData), 1)
      | some items =>
        if (items.length : Int) < limit then
          some (Except.ok (combinedResponse result (allData ++ items)), 1)
        else
          match paginateLoop apiCall opts limit (allData ++ items) (currentPage + 1) fuel with
          | none => none
          | some (res, n) => some (res, n + 1)

/-- `executeWithAutoPagination` from `bin/cli.ts`:
`if (!autoPaginate || !limit) return executeWithRetry(() => apiCall(1), ...)`,
otherwise run the pagination loop from page 1 with an empty accumulator. -/
def executeWithAutoPagination (apiCall : Nat → Nat → Except ε (PaginatedResponse α))
    (opts : GlobalOptions) (limit : Option Int) (fuel : Nat) :
    Option (Except (Option ε) (PaginatedResponse α) × Nat) :=
  if !opts.autoPaginate || jsFalsy limit then
    some ((executeWithRetry (apiCall 1) opts).1, 1)
  else
    paginateLoop apiCall opts (limit.getD 0) [] 1 fuel

/-- Concatenation of the item lists of pages `page, page+1, ..., page+m`. -/
def pagesConcat (itm : Nat → List α) (page : Nat) : Nat → List α
  | 0 => itm page
  | m + 1 => itm page ++ pagesConcat itm (page + 1) m

/-- Bool test: does `pat` occur as a contiguous run inside `s`? -/
def containsPat (pat : List Char) : List Char → Bool
  | [] => pat.isEmpty
  | c :: cs => pat.isPrefixOf (c :: cs) || containsPat pat cs

/-- One step of the retry loop when the current attempt fails. -/
theorem retryLoop_succ_error (apiCall : Nat → Except ε α) (lastE : Option ε)
    (attempt fuel : Nat) (e : ε) (he : apiCall attempt = Except.error e) :
    retryLoop apiCall lastE attempt (fuel + 1)
      = ((retryLoop apiCall (some e) (attempt + 1) fuel).1,
         (retryLoop apiCall (some e) (attempt + 1) fuel).2 + 1) := by
  simp [retryLoop, he]

/-- One step of the retry loop when the current attempt succeeds. -/
theorem retryLoop_succ_ok (apiCall : Nat → Except ε α) (lastE : Option ε)
    (attempt fuel : Nat) (v : α) (hv : apiCall attempt = Except.ok v) :
    retryLoop apiCall lastE attempt (fuel + 1) = (Except.ok v, 1) := by
  simp [retryLoop, hv]

/-- When every attempt fails, the retry loop consumes all its fuel, makes one
call per fuel unit, and ends with the last recorded error. -/
theorem retryLoop_allFail (apiCall : Nat → Except ε α)
    (hfail : ∀ a, ∃ e, apiCall a = Except.error e) :
    ∀ (fuel attempt : Nat) (lastE : Option ε),
      ∃ e, retryLoop apiCall lastE attempt (fuel + 1) = (Except.error (some e), fuel + 1) := by
  intro fuel
  induction fuel with
  | zero =>
    intro attempt lastE
    obtain ⟨e, he⟩ := hfail attempt
    refine ⟨e, ?_⟩
    rw [retryLoop_succ_error apiCall lastE attempt 0 e he]
    rfl
  | succ n ih =>
    intro attempt lastE
    obtain ⟨e, he⟩ := hfail attempt
    obtain ⟨e2, he2⟩ := ih (attempt + 1) (some e)
    refine ⟨e2, ?_⟩
    rw [retryLoop_succ_error apiCall lastE attempt (n + 1) e he, he2]

/-- A run whose first `k` attempts (from `attempt`) fail and whose attempt
`attempt + k` succeeds returns the success value after `k + 1` calls. -/
theorem retryLoop_failThenOk (apiCall : Nat → Except ε α) (v : α) :
    ∀ (k fuel attempt : Nat) (lastE : Option ε), k < fuel →
      (∀ i, i < k → ∃ e, apiCall (attempt + i) = Except.error e) →
      apiCall (attempt + k) = Except.ok v →
      retryLoop apiCall lastE attempt fuel = (Except.ok v, k + 1) := by
  intro k
  induction k with
  | zero =>
    intro fuel attempt lastE hk hfail hok
    obtain ⟨f, rfl⟩ : ∃ f, fuel = f + 1 := ⟨fuel - 1, by omega⟩
    rw [retryLoop_succ_ok apiCall lastE attempt f v (by simpa using hok)]
  | succ n ih =>
    intro fuel attempt lastE hk hfail hok
    obtain ⟨f, rfl⟩ : ∃ f, fuel = f + 1 := ⟨fuel - 1, by omega⟩
    obtain ⟨e, he⟩ := hfail 0 (Nat.succ_pos n)
    rw [retryLoop_succ_error apiCall lastE attempt f e (by simpa using he)]
    rw [ih f (attempt + 1) (some e) (by omega)
      (fun i hi => (hfail (i + 1) (by omega)).imp
        (fun e2 he2 => by rw [show attempt + 1 + i = attempt + (i + 1) from by omega]; exact he2))
      (by rw [show attempt + 1 + n = attempt + (n + 1) from by omega]; exact hok)]

/-- C1 (retry bound): for every non-negative `maxRetries = n` and every
fetcher whose calls always reject, `executeWithRetry` invokes the fetcher
exactly `n + 1` times and its result is a rejection (carrying the last
recorded error). -/
theorem retry_bound_always_fail (apiCall : Nat → Except ε α) (opts : GlobalOptions)
    (h0 : 0 ≤ opts.maxRetries)
    (hfail : ∀ a, ∃ e, apiCall a = Except.error e) :
    (∃ e, (executeWithRetry apiCall opts).1 = Except.error (some e)) ∧
    (executeWithRetry apiCall opts).2 = opts.maxRetries.toNat + 1 := by
  have hfuel : (opts.maxRetries + 1).toNat = opts.maxRetries.toNat + 1 := by omega
  obtain ⟨e, he⟩ := retryLoop_allFail apiCall hfail opts.maxRetries.toNat 0 none
  unfold executeWithRetry
  rw [hfuel, he]
  exact ⟨⟨e, rfl⟩, rfl⟩

/-- A fetcher that rejects on every call. -/
def alwaysFail : Nat → Except String Unit := fun _ => Except.error "boom"

/-- Witness for C1 at `maxRetries = 2` and the always-failing fetcher. -/
theorem retry_bound_always_fail_witness :
    (∃ e, (executeWithRetry alwaysFail ⟨2, 0, false⟩).1 = Except.error (some e)) ∧
    (executeWithRetry alwaysFail ⟨2, 0, false⟩).2 =
      (⟨2, 0, false⟩ : GlobalOptions).maxRetries.toNat + 1 :=
  retry_bound_always_fail alwaysFail ⟨2, 0, false⟩ (by decide)
    (fun _ => ⟨"boom", rfl⟩)

/-- C6 (success short-circuits): if the fetcher rejects on its first `k`
attempts with `k < maxRetries + 1` and then resolves with `v`, the retry
loop resolves with `v` after exactly `k + 1` calls. -/
theorem retry_success_short_circuit (apiCall : Nat → Except ε α) (opts : GlobalOptions)
    (v : α) (k : Nat) (h0 : 0 ≤ opts.maxRetries)
    (hk : (k : Int) < opts.maxRetries + 1)
    (hfail : ∀ i, i < k → ∃ e, apiCall i = Except.error e)
    (hok : apiCall k = Except.ok v) :
    executeWithRetry apiCall opts = (Except.ok v, k + 1) := by
  unfold executeWithRetry
  exact retryLoop_failThenOk apiCall v k _ 0 none (by omega)
    (fun i hi => by simpa using hfail i hi) (by simpa using hok)

/-- A fetcher that rejects on its first attempt and then resolves with 42. -/
def failOnceFetch : Nat → Except String Nat :=
  fun a => if a = 0 then Except.error "transient" else Except.ok 42

/-- Witness for C6 at `maxRetries = 3`, `k = 1`. -/
theorem retry_success_short_circuit_witness :
    executeWithRetry failOnceFetch ⟨3, 0, false⟩ = (Except.ok 42, 1 + 1) :=
  retry_success_short_circuit failOnceFetch ⟨3, 0, false⟩ 42 1 (by decide) (by decide)
    (fun i hi => ⟨"transient", by rw [Nat.lt_one_iff.mp hi]; rfl⟩) rfl

/-- The fetcher of spec Scenario B: every call rejects with "network down". -/
def networkDownFetch : Nat → Except String Unit := fun _ => Except.error "network down"

/-- Options of spec Scenario B: `maxRetries = 2`. -/
def scenarioBOpts : GlobalOptions := { maxRetries := 2, timeoutMs := 0, autoPaginate := false }

/-- Counterexample to C7: with `maxRetries = 2` and a fetcher that always
throws "network down", the code makes 3 calls and then rethrows the last
recorded failure itself — the final message is exactly "network down", which
contains "network down" but contains no run of characters referencing retry
exhaustion (neither "retr" nor "exhaust" occurs in it), contradicting the
claim that the rejection message references retry exhaustion. -/
theorem retry_exhaustion_message_counterexample :
    executeWithRetry networkDownFetch scenarioBOpts
        = (Except.error (some "network down"), 3) ∧
    retryErrorMessage (some "network down") = "network down" ∧
    containsPat "network down".toList "network down".toList = true ∧
    containsPat "retr".toList "network down".toList = false ∧
    containsPat "exhaust".toList "network down".toList = false :=
  ⟨rfl, rfl, by decide, by decide, by decide⟩

/-- C7 amended: when every attempt fails, `executeWithRetry` rejects with the
last recorded failure itself, unwrapped — with `maxRetries = 2` and a fetcher
always throwing "network down", the rejection payload is exactly the error
"network down" after exactly 3 underlying calls; the generic
"Request failed after all retry attempts" message is reserved for the case
where no error was ever recorded (no attempt ran). -/
theorem retry_exhaustion_rethrows_last_error :
    executeWithRetry networkDownFetch scenarioBOpts
        = (Except.error (some "network down"), 3) ∧
    retryErrorMessage (some "network down") = "network down" ∧
    executeWithRetry networkDownFetch ⟨-1, 0, false⟩ = (Except.error none, 0) ∧
    retryErrorMessage none = "Request failed after all retry attempts" :=
  ⟨rfl, rfl, rfl, rfl⟩

/-- One pagination step when the retried fetch of the current page rejects. -/
theorem paginateLoop_succ_error (apiCall : Nat → Nat → Except ε (PaginatedResponse α))
    (opts : GlobalOptions) (limit : Int) (acc : List α) (page fuel : Nat) (e : Option ε)
    (he : (executeWithRetry (apiCall page) opts).1 = Except.error e) :
    paginateLoop apiCall opts limit acc page (fuel + 1) = some (Except.error e, 1) := by
  simp [paginateLoop, he]

/-- One pagination step when the current page succeeds with fewer than
`limit` items: the loop stops and builds the combined response. -/
theorem paginateLoop_succ_short (apiCall : Nat → Nat → Except ε (PaginatedResponse α))
    (opts : GlobalOptions) (limit : Int) (acc : List α) (page fuel : Nat)
    (result : PaginatedResponse α) (items : List α)
    (hr : (executeWithRetry (apiCall page) opts).1 = Except.ok result)
    (hd : result.data = some items)
    (hlt : (items.length : Int) < limit) :
    paginateLoop apiCall opts limit acc page (fuel + 1)
      = some (Except.ok (combinedResponse result (acc ++ items)), 1) := by
  simp [paginateLoop, hr, hd, hlt]

/-- One pagination step when the current page succeeds with at least `limit`
items: the items are appended and the loop advances to the next page. -/
theorem paginateLoop_succ_full (apiCall : Nat → Nat → Except ε (PaginatedResponse α))
    (opts : GlobalOptions) (limit : Int) (acc : List α) (page fuel : Nat)
    (result : PaginatedResponse α) (items : List α)
    (hr : (executeWithRetry (apiCall page) opts).1 = Except.ok result)
    (hd : result.data = some items)
    (hge : ¬ (items.length : Int) < limit) :
    paginateLoop apiCall opts limit acc page (fuel + 1)
      = match paginateLoop apiCall opts limit (acc ++ items) (page + 1) fuel with
        | none => none
        | some (res, n) => some (res, n + 1) := by
  simp [paginateLoop, hr, hd, hge]

/-- A sweep in which pages `page .. page+m-1` succeed full and page `page+m`
succeeds short fetches exactly `m + 1` pages and aggregates all their items
after the accumulator. -/
theorem paginateLoop_run (apiCall : Nat → Nat → Except ε (PaginatedResponse α))
    (opts : GlobalOptions) (L : Int)
    (resp : Nat → PaginatedResponse α) (itm : Nat → List α) :
    ∀ (m page : Nat) (acc : List α) (fuel : Nat), m < fuel →
      (∀ j, j ≤ m → (executeWithRetry (apiCall (page + j)) opts).1 = Except.ok (resp (page + j))) →
      (∀ j, j ≤ m → (resp (page + j)).data = some (itm (page + j))) →
      (∀ j, j < m → L ≤ ((itm (page + j)).length : Int)) →
      ((itm (page + m)).length : Int) < L →
      paginateLoop apiCall opts L acc page fuel
        = some (Except.ok (combinedResponse (resp (page + m)) (acc ++ pagesConcat itm page m)),
            m + 1) := by
  intro m
  induction m with
  | zero =>
    intro page acc fuel hfuel hok hdata hfull hshort
    obtain ⟨f, rfl⟩ : ∃ f, fuel = f + 1 := ⟨fuel - 1, by omega⟩
    rw [paginateLoop_succ_short apiCall opts L acc page f (resp page) (itm page)
      (hok 0 (Nat.zero_le 0)) (hdata 0 (Nat.zero_le 0)) hshort]
    rfl
  | succ n ih =>
    intro page acc fuel hfuel hok hdata hfull hshort
    obtain ⟨f, rfl⟩ : ∃ f, fuel = f + 1 := ⟨fuel - 1, by omega⟩
    have hge : ¬ ((itm page).length : Int) < L := by
      have h0 : L ≤ ((itm page).length : Int) := by simpa using hfull 0 (Nat.succ_pos n)
      omega
    rw [paginateLoop_succ_full apiCall opts L acc page f (resp page) (itm page)
      (hok 0 (Nat.zero_le _)) (hdata 0 (Nat.zero_le _)) hge]
    have hshift : ∀ j, j ≤ n → page + 1 + j = page + (j + 1) := fun j _ => by omega
    rw [ih (page + 1) (acc ++ itm page) f (by omega)
      (fun j hj => by rw [hshift j hj]; exact hok (j + 1) (by omega))
      (fun j hj => by rw [hshift j hj]; exact hdata (j + 1) (by omega))
      (fun j hj => by rw [hshift j (by omega)]; exact hfull (j + 1) (by omega))
      (by rw [hshift n (Nat.le_refl n)]; exact hshort)]
    rw [show page + 1 + n = page + (n + 1) from by omega]
    simp [pagesConcat, List.append_assoc]

/-- A sweep in which pages `page .. page+m-1` succeed full and the retried
fetch of page `page+m` rejects propagates that rejection after `m + 1` page
fetches, discarding the accumulator. -/
theorem paginateLoop_fail (apiCall : Nat → Nat → Except ε (PaginatedResponse α))
    (opts : GlobalOptions) (L : Int)
    (resp : Nat → PaginatedResponse α) (itm : Nat → List α) (e : Option ε) :
    ∀ (m page : Nat) (acc : List α) (fuel : Nat), m < fuel →
      (∀ j, j < m → (executeWithRetry (apiCall (page + j)) opts).1 = Except.ok (resp (page + j))) →
      (∀ j, j < m → (resp (page + j)).data = some (itm (page + j))) →
      (∀ j, j < m → L ≤ ((itm (page + j)).length : Int)) →
      (executeWithRetry (apiCall (page + m)) opts).1 = Except.error e →
      paginateLoop apiCall opts L acc page fuel = some (Except.error e, m + 1) := by
  intro m
  induction m with
  | zero =>
    intro page acc fuel hfuel hok hdata hfull herr
    obtain ⟨f, rfl⟩ : ∃ f, fuel = f + 1 := ⟨fuel - 1, by omega⟩
    exact paginateLoop_succ_error apiCall opts L acc page f e herr
  | succ n ih =>
    intro page acc fuel hfuel hok hdata hfull herr
    obtain ⟨f, rfl⟩ : ∃ f, fuel = f + 1 := ⟨fuel - 1, by omega⟩
    have hge : ¬ ((itm page).length : Int) < L := by
      have h0 : L ≤ ((itm page).length : Int) := by simpa using hfull 0 (Nat.succ_pos n)
      omega
    rw [paginateLoop_succ_full apiCall opts L acc page f (resp page) (itm page)
      (hok 0 (Nat.succ_pos n)) (hdata 0 (Nat.succ_pos n)) hge]
    have hshift : ∀ j : Nat, page + 1 + j = page + (j + 1) := fun j => by omega
    rw [ih (page + 1) (acc ++ itm page) f (by omega)
      (fun j hj => by rw [hshift j]; exact hok (j + 1) (by omega))
      (fun j hj => by rw [hshift j]; exact hdata (j + 1) (by omega))
      (fun j hj => by rw [hshift j]; exact hfull (j + 1) (by omega))
      (by rw [hshift n]; exact herr)]

/-- With a negative limit, a page's item count is never strictly below the
limit, so (as long as pages keep resolving with array data) the loop never
stops: it exhausts any amount of fuel. -/
theorem paginateLoop_negLimit (apiCall : Nat → Nat → Except ε (PaginatedResponse α))
    (opts : GlobalOptions) (L : Int)
    (resp : Nat → PaginatedResponse α) (itm : Nat → List α)
    (hneg : L < 0)
    (hret : ∀ p, (executeWithRetry (apiCall p) opts).1 = Except.ok (resp p))
    (hdata : ∀ p, (resp p).data = some (itm p)) :
    ∀ (fuel page : Nat) (acc : List α),
      paginateLoop apiCall opts L acc page fuel = none := by
  intro fuel
  induction fuel with
  | zero => intro page acc; rfl
  | succ n ih =>
    intro page acc
    have hge : ¬ ((itm page).length : Int) < L := by
      have : (0 : Int) ≤ ((itm page).length : Int) := Int.natCast_nonneg _
      omega
    rw [paginateLoop_succ_full apiCall opts L acc page n (resp page) (itm page)
      (hret page) (hdata page) hge]
    rw [ih (page + 1) (acc ++ itm page)]

/-- C4 (pagination disabled): with `autoPaginate = false`, or with an
undefined/falsy `limit`, `executeWithAutoPagination` performs exactly one
retried fetch, of page 1 only, and returns that result unmodified — no
aggregation wrapper — regardless of the fetcher. -/
theorem pagination_disabled_single_fetch (apiCall : Nat → Nat → Except ε (PaginatedResponse α))
    (opts : GlobalOptions) (limit : Option Int) (fuel : Nat)
    (h : opts.autoPaginate = false ∨ jsFalsy limit = true) :
    executeWithAutoPagination apiCall opts limit fuel
      = some ((executeWithRetry (apiCall 1) opts).1, 1) := by
  rcases h with h | h <;> simp [executeWithAutoPagination, h]

/-- A fetcher whose every page resolves immediately with a single item. -/
def singleItemFetch : Nat → Nat → Except String (PaginatedResponse Nat) :=
  fun _ _ => Except.ok { data := some [0], pagination := none }

/-- Witness for C4: `autoPaginate = false` with a full page still yields one
single-page fetch of page 1, returned unmodified. -/
theorem pagination_disabled_single_fetch_witness :
    executeWithAutoPagination singleItemFetch ⟨0, 0, false⟩ (some 1) 3
      = some ((executeWithRetry (singleItemFetch 1) ⟨0, 0, false⟩).1, 1) :=
  pagination_disabled_single_fetch singleItemFetch ⟨0, 0, false⟩ (some 1) 3 (Or.inl rfl)

/-- C5 (pagination termination): with `autoPaginate = true` and a positive
limit `L`, if pages `1 .. m` each resolve with at least `L` items and page
`m + 1` resolves with strictly fewer than `L` items (possibly zero), then the
sweep fetches exactly the `m + 1` pages `1 .. m+1` — every full page triggers
another fetch and the first short page is the last page fetched — and the
result aggregates all their items. -/
theorem pagination_stops_iff_short_page (apiCall : Nat → Nat → Except ε (PaginatedResponse α))
    (opts : GlobalOptions) (L : Int)
    (resp : Nat → PaginatedResponse α) (itm : Nat → List α) (m fuel : Nat)
    (hap : opts.autoPaginate = true) (hL : 0 < L) (hfuel : m < fuel)
    (hok : ∀ j, j ≤ m → (executeWithRetry (apiCall (1 + j)) opts).1 = Except.ok (resp (1 + j)))
    (hdata : ∀ j, j ≤ m → (resp (1 + j)).data = some (itm (1 + j)))
    (hfull : ∀ j, j < m → L ≤ ((itm (1 + j)).length : Int))
    (hshort : ((itm (1 + m)).length : Int) < L) :
    executeWithAutoPagination apiCall opts (some L) fuel
      = some (Except.ok (combinedResponse (resp (1 + m)) (pagesConcat itm 1 m)), m + 1) := by
  have hfalsy : jsFalsy (some L) = false := by
    simp [jsFalsy]
    omega
  rw [executeWithAutoPagination, hap, hfalsy]
  simp only [Bool.not_true, Bool.or_self, if_false, Option.getD_some, Bool.false_eq_true]
  rw [paginateLoop_run apiCall opts L resp itm m 1 [] fuel hfuel hok hdata hfull hshort]
  simp

/-- A fetcher realizing page sizes `[10, 10, 0]`: pages 1 and 2 are full,
page 3 is empty. -/
def c5itm : Nat → List Nat := fun p => if p ≤ 2 then List.range 10 else []

/-- The responses of `c5fetch`, one per page. -/
def c5resp : Nat → PaginatedResponse Nat :=
  fun p => { data := some (c5itm p), pagination := none }

/-- The page fetcher for the C5 witness: always resolves on first attempt. -/
def c5fetch : Nat → Nat → Except String (PaginatedResponse Nat) :=
  fun p _ => Except.ok (c5resp p)

/-- Witness for C5: sizes `[10, 10, 0]` with `limit = 10` fetch exactly 3
pages, the empty page 3 being final. -/
theorem pagination_stops_iff_short_page_witness :
    executeWithAutoPagination c5fetch ⟨0, 0, true⟩ (some 10) 5
      = some (Except.ok (combinedResponse (c5resp (1 + 2)) (pagesConcat c5itm 1 2)), 2 + 1) :=
  pagination_stops_iff_short_page c5fetch ⟨0, 0, true⟩ 10 c5resp c5itm 2 5 rfl (by decide)
    (by decide) (fun j _ => rfl) (fun j _ => rfl)
    (fun j hj => by
      have hj2 : j = 0 ∨ j = 1 := by omega
      rcases hj2 with rfl | rfl <;> decide)
    (by decide)

/-- C3 (pagination abort): in an auto-paginating run where pages `1 .. m`
resolve full and the retried fetch of page `m + 1 > 1` rejects with `e`, the
whole operation rejects with exactly that error after `m + 1` page fetches —
never an `ok` result, so the items accumulated from the earlier pages are
discarded rather than returned. -/
theorem pagination_abort_on_retry_exhaustion (apiCall : Nat → Nat → Except ε (PaginatedResponse α))
    (opts : GlobalOptions) (L : Int)
    (resp : Nat → PaginatedResponse α) (itm : Nat → List α) (e : Option ε) (m fuel : Nat)
    (hap : opts.autoPaginate = true) (hL : L ≠ 0) (_hm : 1 ≤ m) (hfuel : m < fuel)
    (hok : ∀ j, j < m → (executeWithRetry (apiCall (1 + j)) opts).1 = Except.ok (resp (1 + j)))
    (hdata : ∀ j, j < m → (resp (1 + j)).data = some (itm (1 + j)))
    (hfull : ∀ j, j < m → L ≤ ((itm (1 + j)).length : Int))
    (herr : (executeWithRetry (apiCall (1 + m)) opts).1 = Except.error e) :
    executeWithAutoPagination apiCall opts (some L) fuel = some (Except.error e, m + 1) := by
  have hfalsy : jsFalsy (some L) = false := by
    simp [jsFalsy]
    omega
  rw [executeWithAutoPagination, hap, hfalsy]
  simp only [Bool.not_true, Bool.or_self, if_false, Option.getD_some, Bool.false_eq_true]
  exact paginateLoop_fail apiCall opts L resp itm e m 1 [] fuel hfuel hok hdata hfull herr

/-- The page fetcher for the C3 witness: page 1 resolves with a full page of
10 items, every fetch of page 2 rejects, so page 2 exhausts its retries. -/
def c3fetch : Nat → Nat → Except String (PaginatedResponse Nat) :=
  fun p _ => if p ≤ 1 then Except.ok (c5resp p) else Except.error "server error"

/-- Witness for C3: `limit = 10`, page 1 full, page 2 exhausts retries with
`maxRetries = 1`; the run rejects with the last error after 2 page fetches. -/
theorem pagination_abort_on_retry_exhaustion_witness :
    executeWithAutoPagination c3fetch ⟨1, 0, true⟩ (some 10) 5
      = some (Except.error (some "server error"), 1 + 1) :=
  pagination_abort_on_retry_exhaustion c3fetch ⟨1, 0, true⟩ 10 c5resp c5itm
    (some "server error") 1 5 rfl (by decide) (by decide) (by decide)
    (fun j hj => by rw [Nat.lt_one_iff.mp hj]; rfl)
    (fun j hj => by rw [Nat.lt_one_iff.mp hj]; rfl)
    (fun j hj => by rw [Nat.lt_one_iff.mp hj]; decide)
    rfl

/-- Page sizes of spec Scenario C: `[10, 10, 4]`. -/
def c2size : Nat → Nat
  | 1 => 10
  | 2 => 10
  | 3 => 4
  | _ => 0

/-- Items of page `p` in Scenario C, tagged with their page of origin so the
concatenation order is observable. -/
def c2items (p : Nat) : List (Nat × Nat) :=
  (List.range (c2size p)).map (fun j => (p, j))

/-- Per-page metadata in Scenario C; `current_page` and `total_results` are
deliberately distinctive so the derived fields are observable. -/
def c2meta (p : Nat) : PaginationInfo :=
  { current_page := some (p : Int), total_pages := some 3, total_results := some 12345 }

/-- The Scenario C fetcher: every fetch resolves on its first attempt. -/
def c2fetch : Nat → Nat → Except String (PaginatedResponse (Nat × Nat)) :=
  fun p _ => Except.ok { data := some (c2items p), pagination := some (c2meta p) }

/-- The options of Scenario C: `autoPaginate = true`. -/
def c2opts : GlobalOptions := { maxRetries := 3, timeoutMs := 0, autoPaginate := true }

/-- C2 (Scenario C): with `autoPaginate = true`, `limit = 10` and page sizes
`[10, 10, 4]`, exactly 3 pages are fetched and the result concatenates the
three pages' items in page order (24 items), with `total_results = 24`,
`current_page = 1`, and `total_pages` inherited from the last fetched page's
metadata. -/
theorem pagination_scenario_c :
    executeWithAutoPagination c2fetch c2opts (some 10) 5
      = some (Except.ok
          { data := some (c2items 1 ++ c2items 2 ++ c2items 3)
            pagination := some
              { current_page := some 1, total_pages := some 3, total_results := some 24 } },
          3) := by
  rfl

/-- The options for the C8 analysis: `autoPaginate = true`. -/
def c8opts : GlobalOptions := { maxRetries := 0, timeoutMs := 0, autoPaginate := true }

/-- Counterexample to C8: with `autoPaginate = true` and the negative limit
`-1`, the run does not collapse to the single-fetch behavior of the disabled
branch — at fuel 5 the loop is still running (result `none`), whereas the
single-fetch behavior would be the `some` value shown. -/
theorem negative_limit_counterexample :
    executeWithAutoPagination singleItemFetch c8opts (some (-1)) 5 = none ∧
    some ((executeWithRetry (singleItemFetch 1) c8opts).1, 1)
      ≠ (none : Option (Except (Option String) (PaginatedResponse Nat) × Nat)) :=
  ⟨rfl, by simp⟩

/-- C8 amended: only a falsy limit (`0` or absent) collapses to the disabled
branch's single retried fetch of page 1.  A strictly negative limit passes
the `!limit` guard, enters the pagination loop, and — since a page's item
count is never strictly below a negative limit — the loop never terminates
for any amount of fuel as long as pages keep resolving with array data. -/
theorem negative_limit_no_collapse (apiCall : Nat → Nat → Except ε (PaginatedResponse α))
    (opts : GlobalOptions) (l : Int)
    (resp : Nat → PaginatedResponse α) (itm : Nat → List α) (fuel : Nat)
    (hap : opts.autoPaginate = true) (hneg : l < 0)
    (hret : ∀ p, (executeWithRetry (apiCall p) opts).1 = Except.ok (resp p))
    (hdata : ∀ p, (resp p).data = some (itm p)) :
    executeWithAutoPagination apiCall opts (some 0) fuel
        = some ((executeWithRetry (apiCall 1) opts).1, 1) ∧
    executeWithAutoPagination apiCall opts (some l) fuel = none := by
  constructor
  · simp [executeWithAutoPagination, jsFalsy]
  · have hfalsy : jsFalsy (some l) = false := by
      simp [jsFalsy]
      omega
    rw [executeWithAutoPagination, hap, hfalsy]
    simp only [Bool.not_true, Bool.or_self, if_false, Option.getD_some, Bool.false_eq_true]
    exact paginateLoop_negLimit apiCall opts l resp itm hneg hret hdata fuel 1 []

/-- Witness for the amended C8 at limit `-1` and a fetcher of 1-item pages. -/
theorem negative_limit_no_collapse_witness :
    executeWithAutoPagination singleItemFetch c8opts (some 0) 5
        = some ((executeWithRetry (singleItemFetch 1) c8opts).1, 1) ∧
    executeWithAutoPagination singleItemFetch c8opts (some (-1)) 5 = none :=
  negative_limit_no_collapse singleItemFetch c8opts (-1)
    (fun _ => { data := some [0], pagination := none }) (fun _ => [0]) 5
    rfl (by decide) (fun _ => rfl) (fun _ => rfl)

/-- `x || d` never yields `0` when the default `d` is nonzero. -/
theorem jsOrInt_ne_zero (v : Option Int) (d : Int) (hd : d ≠ 0) : jsOrInt v d ≠ 0 := by
  match v with
  | none => simpa [jsOrInt] using hd
  | some n =>
    by_cases hn : n = 0
    · simpa [jsOrInt, hn] using hd
    · simp [jsOrInt, hn]

/-- C10: the flag-value string "0" is parsed to the number `0`, which is
falsy, so `getGlobalOptions` replaces it with the defaults —
`--max-retries 0` yields `maxRetries = 3` and `--timeout-ms 0` yields
`timeoutMs = 10000` — and in general no flag strings can produce a zero
`maxRetries` or a zero `timeoutMs`. -/
theorem cli_zero_flags_replaced_by_defaults :
    getGlobalOptions "0" "0" false
        = { maxRetries := 3, timeoutMs := 10000, autoPaginate := false } ∧
    ∀ (s t : String) (b : Bool),
      (getGlobalOptions s t b).maxRetries ≠ 0 ∧ (getGlobalOptions s t b).timeoutMs ≠ 0 := by
  refine ⟨by decide, fun s t b => ⟨?_, ?_⟩⟩
  · exact jsOrInt_ne_zero (parseIntJs s) 3 (by decide)
  · exact jsOrInt_ne_zero (parseIntJs t) 10000 (by decide)

end TokenApiCli
